import Mathlib

/-!
Verification of the Azure VNet hub-spoke peering reconciler (src/_py.py).

Python strings are modelled as lists of characters (`Str`), byte strings as
lists of naturals below 256, and 32-bit machine words as naturals reduced
modulo `2 ^ 32`.  The remote Azure provider is modelled by explicit outcome
oracles passed to each operation, so every operation of the reconciler is a
pure, executable Lean function of its inputs and its oracle.
-/

/-- Python `str` values are modelled as lists of characters. -/
abbrev Str := List Char

/-- Model of Python `str.lower()`; the identifiers handled by the script are
ASCII resource paths and region names, for which `Char.toLower` agrees with
Python. -/
def asciiLower (s : Str) : Str := s.map Char.toLower

/-! ### MD5 (RFC 1321)

The namer in `generate_peering_name` (src/_py.py:312) appends
`hashlib.md5(base_name.encode()).hexdigest()[:4]` when truncating.  We embed
MD5 itself so that the hash suffix is the real one. -/

/-- Per-round left-rotation amounts of MD5. -/
def md5_s : List Nat :=
  [7, 12, 17, 22, 7, 12, 17, 22, 7, 12, 17, 22, 7, 12, 17, 22,
   5, 9, 14, 20, 5, 9, 14, 20, 5, 9, 14, 20, 5, 9, 14, 20,
   4, 11, 16, 23, 4, 11, 16, 23, 4, 11, 16, 23, 4, 11, 16, 23,
   6, 10, 15, 21, 6, 10, 15, 21, 6, 10, 15, 21, 6, 10, 15, 21]

/-- MD5 sine-derived round constants. -/
def md5_K : List Nat :=
  [0xd76aa478, 0xe8c7b756, 0x242070db, 0xc1bdceee,
   0xf57c0faf, 0x4787c62a, 0xa8304613, 0xfd469501,
   0x698098d8, 0x8b44f7af, 0xffff5bb1, 0x895cd7be,
   0x6b901122, 0xfd987193, 0xa679438e, 0x49b40821,
   0xf61e2562, 0xc040b340, 0x265e5a51, 0xe9b6c7aa,
   0xd62f105d, 0x02441453, 0xd8a1e681, 0xe7d3fbc8,
   0x21e1cde6, 0xc33707d6, 0xf4d50d87, 0x455a14ed,
   0xa9e3e905, 0xfcefa3f8, 0x676f02d9, 0x8d2a4c8a,
   0xfffa3942, 0x8771f681, 0x6d9d6122, 0xfde5380c,
   0xa4beea44, 0x4bdecfa9, 0xf6bb4b60, 0xbebfbc70,
   0x289b7ec6, 0xeaa127fa, 0xd4ef3085, 0x04881d05,
   0xd9d4d039, 0xe6db99e5, 0x1fa27cf8, 0xc4ac5665,
   0xf4292244, 0x432aff97, 0xab9423a7, 0xfc93a039,
   0x655b59c3, 0x8f0ccc92, 0xffeff47d, 0x85845dd1,
   0x6fa87e4f, 0xfe2ce6e0, 0xa3014314, 0x4e0811a1,
   0xf7537e82, 0xbd3af235, 0x2ad7d2bb, 0xeb86d391]

/-- Left rotation of a 32-bit word represented as a natural below `2 ^ 32`. -/
def rotl32 (x s : Nat) : Nat := (x * 2 ^ s + x / 2 ^ (32 - s)) % 2 ^ 32

/-- Little-endian encoding of `x` on `k` bytes. -/
def toLEBytes : Nat → Nat → List Nat
  | 0, _ => []
  | k + 1, x => x % 256 :: toLEBytes k (x / 256)

/-- Little-endian decoding of a byte list into a natural. -/
def fromLEBytes (bs : List Nat) : Nat := bs.foldr (fun b acc => acc * 256 + b) 0

/-- MD5 padding: append the 0x80 marker, zero-fill to 56 mod 64 and append the
64-bit little-endian bit length of the message. -/
def md5_pad (msg : List Nat) : List Nat :=
  let msg1 := msg ++ [0x80]
  let padLen := (64 + 56 - msg1.length % 64) % 64
  msg1 ++ List.replicate padLen 0 ++ toLEBytes 8 ((msg.length * 8) % 2 ^ 64)

/-- One MD5 round: state transformation for round index `i` with message
words `M`. -/
def md5_round (M : List Nat) (i : Nat) (st : Nat × Nat × Nat × Nat) :
    Nat × Nat × Nat × Nat :=
  let (a, b, c, d) := st
  let mask := 0xffffffff
  let fg : Nat × Nat :=
    if i < 16 then ((b &&& c) ||| ((b ^^^ mask) &&& d), i)
    else if i < 32 then ((d &&& b) ||| ((d ^^^ mask) &&& c), (5 * i + 1) % 16)
    else if i < 48 then (b ^^^ c ^^^ d, (3 * i + 5) % 16)
    else (c ^^^ (b ||| (d ^^^ mask)), (7 * i) % 16)
  let f := (fg.1 + a + md5_K.getD i 0 + M.getD fg.2 0) % 2 ^ 32
  (d, (b + rotl32 f (md5_s.getD i 0)) % 2 ^ 32, b, c)

/-- MD5 initial state. -/
def md5_init : Nat × Nat × Nat × Nat :=
  (0x67452301, 0xefcdab89, 0x98badcfe, 0x10325476)

/-- MD5 compression of one 64-byte block into the running state. -/
def md5_compress (st : Nat × Nat × Nat × Nat) (block : List Nat) :
    Nat × Nat × Nat × Nat :=
  let M := (List.range 16).map (fun j => fromLEBytes ((block.drop (4 * j)).take 4))
  let r := (List.range 64).foldl (fun acc i => md5_round M i acc) st
  ((st.1 + r.1) % 2 ^ 32, (st.2.1 + r.2.1) % 2 ^ 32,
   (st.2.2.1 + r.2.2.1) % 2 ^ 32, (st.2.2.2 + r.2.2.2) % 2 ^ 32)

/-- Fold the MD5 compression over all 64-byte blocks (fuel-indexed to keep the
recursion structural; callers pass the byte-list length as fuel). -/
def md5_blocks : Nat → Nat × Nat × Nat × Nat → List Nat → Nat × Nat × Nat × Nat
  | 0, st, _ => st
  | _ + 1, st, [] => st
  | fuel + 1, st, b :: rest =>
      md5_blocks fuel (md5_compress st ((b :: rest).take 64)) ((b :: rest).drop 64)

/-- MD5 digest of a byte message, as its 16 digest bytes. -/
def md5_digest_bytes (msg : List Nat) : List Nat :=
  let padded := md5_pad msg
  let r := md5_blocks padded.length md5_init padded
  toLEBytes 4 r.1 ++ toLEBytes 4 r.2.1 ++ toLEBytes 4 r.2.2.1 ++ toLEBytes 4 r.2.2.2

/-- Lower-case hexadecimal digit for a value below 16. -/
def hexChar (n : Nat) : Char :=
  if n < 10 then Char.ofNat (48 + n) else Char.ofNat (87 + n)

/-- Model of Python `hashlib.md5(msg).hexdigest()`: the 32-character
lower-case hex rendering of the digest. -/
def md5_hexdigest (msg : List Nat) : Str :=
  (md5_digest_bytes msg).foldr (fun byte acc => hexChar (byte / 16) :: hexChar (byte % 16) :: acc) []

/-- UTF-8 encoding of a single character, as Python `str.encode()` performs
per code point. -/
def utf8EncodeChar (c : Char) : List Nat :=
  let n := c.toNat
  if n < 0x80 then [n]
  else if n < 0x800 then [0xc0 + n / 0x40, 0x80 + n % 0x40]
  else if n < 0x10000 then
    [0xe0 + n / 0x1000, 0x80 + (n / 0x40) % 0x40, 0x80 + n % 0x40]
  else
    [0xf0 + n / 0x40000, 0x80 + (n / 0x1000) % 0x40, 0x80 + (n / 0x40) % 0x40, 0x80 + n % 0x40]

/-- UTF-8 encoding of a whole string, modelling Python `str.encode()`. -/
def utf8Encode (s : Str) : List Nat := s.foldr (fun c acc => utf8EncodeChar c ++ acc) []

/-! ### Peering namer (src/_py.py:312, `generate_peering_name`) -/

/-- Ownership marker put in front of every peering name the script creates. -/
def peeringNamePfx : Str := "cngfw_dnd-".toList

/-- The untruncated peering name `f"cngfw_dnd-{a}-to-{b}"` built by
`generate_peering_name` before the length check. -/
def peering_base_name (vnet_a_name vnet_b_name : Str) : Str :=
  peeringNamePfx ++ vnet_a_name ++ "-to-".toList ++ vnet_b_name

/-- Embedding of `generate_peering_name` (src/_py.py:312).  All call sites in
the source use the default `max_length = 79`; here the bound is an explicit
first argument. -/
def generate_peering_name (max_length : Nat) (vnet_a_name vnet_b_name : Str) : Str :=
  let base_name := peering_base_name vnet_a_name vnet_b_name
  if base_name.length ≤ max_length then
    base_name
  else
    let pfx_length := "cngfw_dnd--to-".toList.length
    let max_each := (max_length - pfx_length) / 2
    let hash_suffix := (md5_hexdigest (utf8Encode base_name)).take 4
    let short_a := vnet_a_name.take (max_each - 2)
    let short_b := vnet_b_name.take (max_each - 2)
    peeringNamePfx ++ short_a ++ "-to-".toList ++ short_b ++ "-".toList ++ hash_suffix

/-! ### Data model -/

/-- Snapshot of a virtual network as used by the script: display name,
resource id and location. -/
structure Vnet where
  name : Str
  id : Str
  location : Str
deriving DecidableEq

/-- Snapshot of a `VirtualNetworkPeering`: the fields read by
`is_healthy_peering` (src/_py.py:334) and by the orphan sweep
(src/_py.py:594).  `peering_sync_level = none` models an SDK object without
the `peering_sync_level` attribute (the `hasattr` test in the source). -/
structure Peering where
  name : Str
  peering_state : Str
  allow_virtual_network_access : Bool
  allow_forwarded_traffic : Bool
  peering_sync_level : Option Str
  remote_virtual_network_id : Str
deriving DecidableEq

/-- The `PeeringState` enum of the source (src/_py.py:36).  Note that it has
no `Healthy` member. -/
inductive PeeringState where
  | connected
  | disconnected
  | initiated
  | failed
deriving DecidableEq

/-- The `PeeringAction` enum of the source (src/_py.py:44). -/
inductive PeeringAction where
  | created
  | repaired
  | deleted
  | no_change
  | failed
deriving DecidableEq

/-- The `PeeringConfig` dataclass (src/_py.py:53). -/
structure PeeringConfig where
  allow_virtual_network_access : Bool
  allow_forwarded_traffic : Bool
  allow_gateway_transit : Bool
  use_remote_gateways : Bool
deriving DecidableEq

/-- Default field values of `PeeringConfig` (src/_py.py:56-59). -/
def defaultPeeringConfig : PeeringConfig :=
  { allow_virtual_network_access := true, allow_forwarded_traffic := true,
    allow_gateway_transit := false, use_remote_gateways := false }

/-- The `PeeringResult` dataclass (src/_py.py:71); the wall-clock timestamp
field is dropped from the embedding. -/
structure PeeringResult where
  hub_vnet : Str
  spoke_vnet : Str
  status : PeeringState
  action : PeeringAction
  region_pair : Str
  error : Option Str
deriving DecidableEq

/-- Content of the critical-failure record emitted when a create exhausts its
retries: the entry appended to `report_data["critical_failures"]`
(src/_py.py:425) joined with the identifiers written to the failure log
(src/_py.py:409). -/
structure CriticalFailure where
  peering_name : Str
  source_vnet : Str
  source_vnet_id : Str
  target_vnet : Str
  target_vnet_id : Str
  config : PeeringConfig
  error : Str
deriving DecidableEq

/-! ### Health evaluator (src/_py.py:334, `is_healthy_peering`) -/

/-- Embedding of `is_healthy_peering`.  The argument is `none` for an absent
peering (`if not peering: return False`). -/
def is_healthy_peering : Option Peering → Bool
  | none => false
  | some peering =>
    let basic_health :=
      peering.peering_state == "Connected".toList &&
      peering.allow_virtual_network_access &&
      peering.allow_forwarded_traffic
    let sync_healthy :=
      match peering.peering_sync_level with
      | some lvl => lvl == "FullyInSync".toList
      | none => true
    basic_health && sync_healthy

/-- Health predicate following the words of the specification sentence: the
optional sync-level field, when present, must equal the literal
"fully in sync".  This definition is written from the words of the spec, to
be compared with `is_healthy_peering` from the source. -/
def isHealthySpecWords : Option Peering → Bool
  | none => false
  | some peering =>
    peering.peering_state == "Connected".toList &&
    peering.allow_virtual_network_access &&
    peering.allow_forwarded_traffic &&
    (match peering.peering_sync_level with
     | some lvl => lvl == "fully in sync".toList
     | none => true)

/-! ### Mutating-operation executor (src/_py.py:370 `create_peering`,
src/_py.py:437 `delete_peering`)

Remote call outcomes are modelled by an oracle `Nat → Option Str`: the value
at `attempt` is `none` when that attempt of the remote call succeeds, and
`some e` when it raises an exception rendered as `e`. -/

/-- Retry bound of `create_peering` (src/_py.py:373). -/
def max_retries : Nat := 3

/-- Base delay of `create_peering` (src/_py.py:374), in seconds. -/
def retry_delay : Nat := 5

/-- Outcome of a create or delete operation: reported success flag, number of
remote call attempts performed, the sleeps (in seconds) inserted between
attempts, and the critical-failure records emitted. -/
structure CreateResult where
  success : Bool
  attempts : Nat
  sleeps : List Nat
  critical : List CriticalFailure
deriving DecidableEq

/-- The retry loop `for attempt in range(max_retries)` of `create_peering`
(src/_py.py:379-433).  `attempt` is the loop index and the fuel is the number
of remaining iterations; on a failed attempt before the last one the loop
sleeps `retry_delay * (attempt + 1)` seconds, and on the last failed attempt
it emits exactly one critical-failure record and reports failure. -/
def create_attempt_loop (outcome : Nat → Option Str) (source_vnet target_vnet : Vnet)
    (peering_name : Str) (config : PeeringConfig) : Nat → Nat → CreateResult
  | _, 0 => { success := false, attempts := 0, sleeps := [], critical := [] }
  | attempt, fuel + 1 =>
    match outcome attempt with
    | none => { success := true, attempts := 1, sleeps := [], critical := [] }
    | some e =>
      if attempt < max_retries - 1 then
        let rest := create_attempt_loop outcome source_vnet target_vnet peering_name config
          (attempt + 1) fuel
        { success := rest.success, attempts := rest.attempts + 1,
          sleeps := retry_delay * (attempt + 1) :: rest.sleeps, critical := rest.critical }
      else
        { success := false, attempts := 1, sleeps := [],
          critical := [{ peering_name := peering_name, source_vnet := source_vnet.name,
                         source_vnet_id := source_vnet.id, target_vnet := target_vnet.name,
                         target_vnet_id := target_vnet.id, config := config, error := e }] }

/-- Embedding of `create_peering` (src/_py.py:370): resolve the default
configuration and run the retry loop from attempt 0. -/
def create_peering (outcome : Nat → Option Str) (source_vnet target_vnet : Vnet)
    (peering_name : Str) (config : Option PeeringConfig) : CreateResult :=
  create_attempt_loop outcome source_vnet target_vnet peering_name
    (config.getD defaultPeeringConfig) 0 max_retries

/-- Embedding of `delete_peering` (src/_py.py:437): a single remote call in a
catch-all `try`, no retry loop, no sleep, and no critical-failure record; a
raised exception is swallowed and reported as `success = false`. -/
def delete_peering (outcome : Nat → Option Str) (vnet : Vnet) (peering_name : Str) :
    CreateResult :=
  match outcome 0 with
  | none => { success := true, attempts := 1, sleeps := [], critical := [] }
  | some _ => { success := false, attempts := 1, sleeps := [], critical := [] }

/-! ### Pair reconciler (src/_py.py:455, `create_or_repair_peering_pair`) -/

/-- Remote-state oracle for one hub/spoke pair reconciliation: the two
existing peering records returned by `get_existing_peering`, and the outcome
oracles of the delete and create calls on each side. -/
structure PairEnv where
  existing_hub_to_spoke : Option Peering
  existing_spoke_to_hub : Option Peering
  delete_hub_outcome : Nat → Option Str
  delete_spoke_outcome : Nat → Option Str
  create_hub_outcome : Nat → Option Str
  create_spoke_outcome : Nat → Option Str

/-- A mutating remote call issued by the reconciler, identified by the vnet it
is issued on and the peering name it concerns. -/
inductive MutOp where
  | del (vnet_name peering_name : Str)
  | create (vnet_name peering_name : Str)
deriving DecidableEq

/-- Observable outcome of one pair reconciliation: the `PeeringResult`, the
ordered mutating calls issued, the (ignored) boolean results of the delete
calls, and the critical-failure records emitted by the two creates. -/
structure PairOutcome where
  result : PeeringResult
  ops : List MutOp
  delete_results : List Bool
  criticals : List CriticalFailure
deriving DecidableEq

/-- The error message recorded for a pair whose creates did not both succeed
(src/_py.py:519). -/
def pair_error_msg (hub_success spoke_success : Bool) : Str :=
  "Hub->Spoke: ".toList ++ (if hub_success then "OK".toList else "Failed".toList) ++
  ", Spoke->Hub: ".toList ++ (if spoke_success then "OK".toList else "Failed".toList)

/-- Embedding of `create_or_repair_peering_pair` (src/_py.py:455): when both
sides are healthy, return NoChange/Connected and issue no mutating call;
otherwise delete every existing side (hub side first, return values ignored)
and then create both sides fresh, deriving the result from the two create
outcomes only. -/
def create_or_repair_peering_pair (env : PairEnv) (hub_vnet spoke_vnet : Vnet)
    (region_pair : Str) (config : Option PeeringConfig) : PairOutcome :=
  let hub_to_spoke_name := generate_peering_name 79 hub_vnet.name spoke_vnet.name
  let spoke_to_hub_name := generate_peering_name 79 spoke_vnet.name hub_vnet.name
  let existing_hub_to_spoke := env.existing_hub_to_spoke
  let existing_spoke_to_hub := env.existing_spoke_to_hub
  let hub_healthy := is_healthy_peering existing_hub_to_spoke
  let spoke_healthy := is_healthy_peering existing_spoke_to_hub
  if hub_healthy && spoke_healthy then
    { result := { hub_vnet := hub_vnet.name, spoke_vnet := spoke_vnet.name,
                  status := PeeringState.connected, action := PeeringAction.no_change,
                  region_pair := region_pair, error := none },
      ops := [], delete_results := [], criticals := [] }
  else
    let any_existing := existing_hub_to_spoke.isSome || existing_spoke_to_hub.isSome
    let do_delete := any_existing && (!hub_healthy || !spoke_healthy)
    let del_hub := do_delete && existing_hub_to_spoke.isSome
    let del_spoke := do_delete && existing_spoke_to_hub.isSome
    let del_ops :=
      (if del_hub then [MutOp.del hub_vnet.name hub_to_spoke_name] else []) ++
      (if del_spoke then [MutOp.del spoke_vnet.name spoke_to_hub_name] else [])
    let del_results :=
      (if del_hub then [(delete_peering env.delete_hub_outcome hub_vnet hub_to_spoke_name).success]
       else []) ++
      (if del_spoke then [(delete_peering env.delete_spoke_outcome spoke_vnet spoke_to_hub_name).success]
       else [])
    let hub_res := create_peering env.create_hub_outcome hub_vnet spoke_vnet hub_to_spoke_name config
    let spoke_res := create_peering env.create_spoke_outcome spoke_vnet hub_vnet spoke_to_hub_name config
    let ops := del_ops ++ [MutOp.create hub_vnet.name hub_to_spoke_name,
                           MutOp.create spoke_vnet.name spoke_to_hub_name]
    if hub_res.success && spoke_res.success then
      { result := { hub_vnet := hub_vnet.name, spoke_vnet := spoke_vnet.name,
                    status := PeeringState.connected,
                    action := if any_existing then PeeringAction.repaired else PeeringAction.created,
                    region_pair := region_pair, error := none },
        ops := ops, delete_results := del_results,
        criticals := hub_res.critical ++ spoke_res.critical }
    else
      { result := { hub_vnet := hub_vnet.name, spoke_vnet := spoke_vnet.name,
                    status := PeeringState.failed, action := PeeringAction.failed,
                    region_pair := region_pair,
                    error := some (pair_error_msg hub_res.success spoke_res.success) },
        ops := ops, delete_results := del_results,
        criticals := hub_res.critical ++ spoke_res.critical }

/-! ### Orphan collector (src/_py.py:561-623)

In the source this body sits, apparently through a botched merge, inside
`cleanup_failure_log` after a stray docstring (src/_py.py:561): it refers to
the names `valid_regions` and `dry_run` that are not bound there, and `main`
(src/_py.py:1202) calls a method `cleanup_orphan_peerings` that does not
exist on the class.  The definitions below embed that orphan-sweep body as
the method `cleanup_orphan_peerings(valid_regions, dry_run)` which `main`
calls and which the body text plainly implements. -/

/-- A record appended to `report_data["deleted_orphans"]` after a confirmed
deletion (src/_py.py:605). -/
structure OrphanRecord where
  vnet : Str
  peering_name : Str
  remote_id : Str
deriving DecidableEq

/-- One scanned network together with its listed peerings. -/
structure SweepVnet where
  vnet : Vnet
  peerings : List Peering
deriving DecidableEq

/-- Observable outcome of the orphan sweep: delete calls issued, candidate
log lines (one per orphan found, in dry-run and normal mode alike), and the
orphan records appended after confirmed deletions. -/
structure SweepOut where
  deletes : List (Str × Str)
  candidates : List (Str × Str)
  deleted_orphans : List OrphanRecord
deriving DecidableEq

/-- The valid-network set of the sweep (src/_py.py:565-573): lower-cased ids
of every network whose location is in the valid regions. -/
def build_valid_vnet_ids (all_vnets : List Vnet) (valid_regions : List Str) : List Str :=
  (all_vnets.filter
    (fun v => (valid_regions.map asciiLower).contains (asciiLower v.location))).map
    (fun v => asciiLower v.id)

/-- The per-peering orphan test (src/_py.py:595-599): the peering name bears
the ownership marker and its lower-cased remote-network id is not in the
valid set. -/
def orphan_candidate (valid_vnet_ids : List Str) (peering : Peering) : Bool :=
  List.isPrefixOf "cngfw_dnd".toList peering.name &&
  !(valid_vnet_ids.contains (asciiLower peering.remote_virtual_network_id))

/-- The inner loop over one network's peerings (src/_py.py:594-609): every
orphan candidate is logged; when dry-run is off it is deleted (one call) and,
if the delete succeeds, one `OrphanRecord` is appended. -/
def process_peerings (vnet_name : Str) (valid_vnet_ids : List Str) (dry_run : Bool)
    (delete_ok : Str → Str → Bool) : List Peering → SweepOut
  | [] => { deletes := [], candidates := [], deleted_orphans := [] }
  | peering :: rest =>
    let r := process_peerings vnet_name valid_vnet_ids dry_run delete_ok rest
    if orphan_candidate valid_vnet_ids peering then
      if dry_run then
        { deletes := r.deletes, candidates := (vnet_name, peering.name) :: r.candidates,
          deleted_orphans := r.deleted_orphans }
      else if delete_ok vnet_name peering.name then
        { deletes := (vnet_name, peering.name) :: r.deletes,
          candidates := (vnet_name, peering.name) :: r.candidates,
          deleted_orphans :=
            { vnet := vnet_name, peering_name := peering.name,
              remote_id := asciiLower peering.remote_virtual_network_id } :: r.deleted_orphans }
      else
        { deletes := (vnet_name, peering.name) :: r.deletes,
          candidates := (vnet_name, peering.name) :: r.candidates,
          deleted_orphans := r.deleted_orphans }
    else r

/-- Per-network step of `process_subscription_orphans` (src/_py.py:583-609):
networks outside the valid regions are skipped. -/
def process_vnet_orphans (valid_region_lower : List Str) (valid_vnet_ids : List Str)
    (dry_run : Bool) (delete_ok : Str → Str → Bool) (sv : SweepVnet) : SweepOut :=
  if valid_region_lower.contains (asciiLower sv.vnet.location) then
    process_peerings sv.vnet.name valid_vnet_ids dry_run delete_ok sv.peerings
  else
    { deletes := [], candidates := [], deleted_orphans := [] }

/-- The whole orphan sweep over all reachable networks, aggregating the
per-network outcomes. -/
def cleanup_orphan_peerings (valid_regions : List Str) (valid_vnet_ids : List Str)
    (dry_run : Bool) (delete_ok : Str → Str → Bool) (vnets : List SweepVnet) : SweepOut :=
  vnets.foldl
    (fun acc sv =>
      let r := process_vnet_orphans (valid_regions.map asciiLower) valid_vnet_ids
        dry_run delete_ok sv
      { deletes := acc.deletes ++ r.deletes, candidates := acc.candidates ++ r.candidates,
        deleted_orphans := acc.deleted_orphans ++ r.deleted_orphans })
    { deletes := [], candidates := [], deleted_orphans := [] }

/-! ### Shared concrete examples used by witnesses and counterexamples -/

/-- Example hub network. -/
def exHub : Vnet :=
  { name := "hub1".toList, id := "/subscriptions/a/resourceGroups/rg/hub1".toList,
    location := "eastus".toList }

/-- Example spoke network. -/
def exSpoke : Vnet :=
  { name := "spk1".toList, id := "/subscriptions/b/resourceGroups/rg/spk1".toList,
    location := "eastus".toList }

/-- Example healthy peering record. -/
def healthyPeeringEx : Peering :=
  { name := "cngfw_dnd-hub1-to-spk1".toList, peering_state := "Connected".toList,
    allow_virtual_network_access := true, allow_forwarded_traffic := true,
    peering_sync_level := none,
    remote_virtual_network_id := "/subscriptions/b/resourceGroups/rg/spk1".toList }

/-- Example unhealthy (disconnected) peering record. -/
def unhealthyPeeringEx : Peering :=
  { name := "cngfw_dnd-hub1-to-spk1".toList, peering_state := "Disconnected".toList,
    allow_virtual_network_access := true, allow_forwarded_traffic := true,
    peering_sync_level := none,
    remote_virtual_network_id := "/subscriptions/b/resourceGroups/rg/spk1".toList }

/-- Pair environment in which both sides are healthy. -/
def envHealthyEx : PairEnv :=
  { existing_hub_to_spoke := some healthyPeeringEx,
    existing_spoke_to_hub := some healthyPeeringEx,
    delete_hub_outcome := fun _ => none, delete_spoke_outcome := fun _ => none,
    create_hub_outcome := fun _ => none, create_spoke_outcome := fun _ => none }

/-- Pair environment in which no side exists yet and all remote calls
succeed. -/
def envFreshEx : PairEnv :=
  { existing_hub_to_spoke := none, existing_spoke_to_hub := none,
    delete_hub_outcome := fun _ => none, delete_spoke_outcome := fun _ => none,
    create_hub_outcome := fun _ => none, create_spoke_outcome := fun _ => none }

/-- Pair environment with an unhealthy hub side, an absent spoke side, and
all remote calls succeeding. -/
def envRepairEx : PairEnv :=
  { existing_hub_to_spoke := some unhealthyPeeringEx, existing_spoke_to_hub := none,
    delete_hub_outcome := fun _ => none, delete_spoke_outcome := fun _ => none,
    create_hub_outcome := fun _ => none, create_spoke_outcome := fun _ => none }

/-- Like `envRepairEx` but every delete call fails. -/
def envRepairFailDelEx : PairEnv :=
  { existing_hub_to_spoke := some unhealthyPeeringEx, existing_spoke_to_hub := none,
    delete_hub_outcome := fun _ => some "delete boom".toList,
    delete_spoke_outcome := fun _ => some "delete boom".toList,
    create_hub_outcome := fun _ => none, create_spoke_outcome := fun _ => none }

/-! ### Claim C3: the health predicate -/

/-- C3 counterexample: the code accepts the provider spelling `FullyInSync`
for the sync level, so a peering whose sync level is the string
`FullyInSync` (which differs from the string `fully in sync` required by the
claim) is judged healthy by the source while the predicate written from the
words of the claim rejects it. -/
theorem c3_counterexample :
    is_healthy_peering (some
      { name := "cngfw_dnd-hub1-to-spk1".toList, peering_state := "Connected".toList,
        allow_virtual_network_access := true, allow_forwarded_traffic := true,
        peering_sync_level := some "FullyInSync".toList,
        remote_virtual_network_id := "/subscriptions/b/resourceGroups/rg/spk1".toList }) = true ∧
    isHealthySpecWords (some
      { name := "cngfw_dnd-hub1-to-spk1".toList, peering_state := "Connected".toList,
        allow_virtual_network_access := true, allow_forwarded_traffic := true,
        peering_sync_level := some "FullyInSync".toList,
        remote_virtual_network_id := "/subscriptions/b/resourceGroups/rg/spk1".toList }) = false ∧
    ("FullyInSync".toList : Str) ≠ "fully in sync".toList := by
  decide

/-- C3 amended: the health predicate is a pure function of the record with
`is_healthy_peering none = false`, and a present record is healthy exactly
when its state is `Connected`, both access flags are true, and the optional
sync-level field is either absent or equal to `FullyInSync` (the provider
spelling; not the claim literal `fully in sync`). -/
theorem c3_health_characterization :
    is_healthy_peering none = false ∧
    ∀ p : Peering, (is_healthy_peering (some p) = true ↔
      (p.peering_state = "Connected".toList ∧ p.allow_virtual_network_access = true ∧
       p.allow_forwarded_traffic = true ∧
       (p.peering_sync_level = none ∨ p.peering_sync_level = some "FullyInSync".toList))) := by
  refine ⟨rfl, fun p => ?_⟩
  cases h : p.peering_sync_level with
  | none => simp [is_healthy_peering, h, and_assoc]
  | some lvl => simp [is_healthy_peering, h, and_assoc]

/-! ### Claim C8: delete has no retry loop -/

/-- C8 counterexample: with an oracle whose first call fails and whose second
call would succeed, `delete_peering` performs exactly one attempt and reports
failure, instead of the three attempts with backoff stated by the claim. -/
theorem c8_counterexample :
    (delete_peering (fun n => if n = 0 then some "transient error".toList else none)
      exHub "cngfw_dnd-hub1-to-spk1".toList).attempts = 1 ∧
    (delete_peering (fun n => if n = 0 then some "transient error".toList else none)
      exHub "cngfw_dnd-hub1-to-spk1".toList).success = false ∧
    (fun (n : Nat) => if n = 0 then some "transient error".toList else none) 1 = none := by
  decide

/-- C8 amended: a delete is attempted exactly once, with no inter-attempt
sleep and no retry; it succeeds exactly when the single remote call does, and
a failing delete never produces a critical-failure record. -/
theorem c8_delete_single_attempt :
    ∀ (outcome : Nat → Option Str) (vnet : Vnet) (peering_name : Str),
    (delete_peering outcome vnet peering_name).attempts = 1 ∧
    (delete_peering outcome vnet peering_name).sleeps = [] ∧
    (delete_peering outcome vnet peering_name).critical = [] ∧
    ((delete_peering outcome vnet peering_name).success = true ↔ outcome 0 = none) := by
  intro outcome vnet peering_name
  cases h : outcome 0 <;> simp [delete_peering, h]

/-- C8 amended, witness at a concrete always-failing oracle. -/
theorem c8_delete_single_attempt_witness :
    (delete_peering (fun _ => some "err".toList) exHub "p".toList).attempts = 1 ∧
    (delete_peering (fun _ => some "err".toList) exHub "p".toList).success = false := by
  refine ⟨(c8_delete_single_attempt (fun _ => some "err".toList) exHub "p".toList).1, ?_⟩
  have h := (c8_delete_single_attempt (fun _ => some "err".toList) exHub "p".toList).2.2.2
  simp at h
  simp [h]

/-! ### Claim C6: idempotence on a healthy pair -/

/-- C6: when both sides of a pair are healthy at the start of an invocation,
the reconciler issues zero mutating calls: no delete, no create, and hence no
critical-failure record; a rerun after a run that left the pair healthy
therefore mutates nothing. -/
theorem c6_healthy_pair_zero_mutations :
    ∀ (env : PairEnv) (hub_vnet spoke_vnet : Vnet) (region_pair : Str)
      (config : Option PeeringConfig),
    is_healthy_peering env.existing_hub_to_spoke = true →
    is_healthy_peering env.existing_spoke_to_hub = true →
    (create_or_repair_peering_pair env hub_vnet spoke_vnet region_pair config).ops = [] ∧
    (create_or_repair_peering_pair env hub_vnet spoke_vnet region_pair config).delete_results = [] ∧
    (create_or_repair_peering_pair env hub_vnet spoke_vnet region_pair config).criticals = [] := by
  intro env hub_vnet spoke_vnet region_pair config h1 h2
  simp [create_or_repair_peering_pair, h1, h2]

/-- C6 witness: the healthy example environment yields an empty operation
trace. -/
theorem c6_healthy_pair_zero_mutations_witness :
    (create_or_repair_peering_pair envHealthyEx exHub exSpoke "rp".toList none).ops = [] :=
  (c6_healthy_pair_zero_mutations envHealthyEx exHub exSpoke "rp".toList none
    (by decide) (by decide)).1

/-! ### Claim C7: result of a healthy pair -/

/-- C7 counterexample: the source `PeeringState` enum has no `Healthy` member
and the both-healthy branch returns status `Connected` (src/_py.py:475), the
same status returned for a freshly created pair, so the claimed distinct
`Healthy` status does not exist: action NoChange and action Created come with
the identical status value. -/
theorem c7_counterexample :
    (create_or_repair_peering_pair envHealthyEx exHub exSpoke "rp".toList none).result.action =
      PeeringAction.no_change ∧
    (create_or_repair_peering_pair envFreshEx exHub exSpoke "rp".toList none).result.action =
      PeeringAction.created ∧
    (create_or_repair_peering_pair envHealthyEx exHub exSpoke "rp".toList none).result.status =
      (create_or_repair_peering_pair envFreshEx exHub exSpoke "rp".toList none).result.status := by
  decide

/-- C7 amended: for a pair whose two sides are both healthy the reconciler
returns a `PeeringResult` with action NoChange and status `Connected` — the
same `Connected` status used for freshly created pairs, there being no
separate `Healthy` member in the status enum. -/
theorem c7_healthy_pair_result :
    ∀ (env : PairEnv) (hub_vnet spoke_vnet : Vnet) (region_pair : Str)
      (config : Option PeeringConfig),
    is_healthy_peering env.existing_hub_to_spoke = true →
    is_healthy_peering env.existing_spoke_to_hub = true →
    (create_or_repair_peering_pair env hub_vnet spoke_vnet region_pair config).result =
      { hub_vnet := hub_vnet.name, spoke_vnet := spoke_vnet.name,
        status := PeeringState.connected, action := PeeringAction.no_change,
        region_pair := region_pair, error := none } := by
  intro env hub_vnet spoke_vnet region_pair config h1 h2
  simp [create_or_repair_peering_pair, h1, h2]

/-- C7 amended, witness on the healthy example environment. -/
theorem c7_healthy_pair_result_witness :
    (create_or_repair_peering_pair envHealthyEx exHub exSpoke "rp".toList none).result =
      { hub_vnet := exHub.name, spoke_vnet := exSpoke.name,
        status := PeeringState.connected, action := PeeringAction.no_change,
        region_pair := "rp".toList, error := none } :=
  c7_healthy_pair_result envHealthyEx exHub exSpoke "rp".toList none (by decide) (by decide)

/-! ### Claim C1: unhealthy pairs are torn down and recreated -/

/-- C1: whenever at least one side of the pair exists and at least one side
is unhealthy, the reconciler issues exactly one delete for every currently
existing side (hub side first, a healthy-looking side included) and then
attempts to create both sides, in this order, regardless of which side was
unhealthy. -/
theorem c1_unhealthy_pair_delete_then_create :
    ∀ (env : PairEnv) (hub_vnet spoke_vnet : Vnet) (region_pair : Str)
      (config : Option PeeringConfig),
    (env.existing_hub_to_spoke.isSome || env.existing_spoke_to_hub.isSome) = true →
    (is_healthy_peering env.existing_hub_to_spoke &&
      is_healthy_peering env.existing_spoke_to_hub) = false →
    (create_or_repair_peering_pair env hub_vnet spoke_vnet region_pair config).ops =
      (if env.existing_hub_to_spoke.isSome then
        [MutOp.del hub_vnet.name (generate_peering_name 79 hub_vnet.name spoke_vnet.name)]
       else []) ++
      (if env.existing_spoke_to_hub.isSome then
        [MutOp.del spoke_vnet.name (generate_peering_name 79 spoke_vnet.name hub_vnet.name)]
       else []) ++
      [MutOp.create hub_vnet.name (generate_peering_name 79 hub_vnet.name spoke_vnet.name),
       MutOp.create spoke_vnet.name (generate_peering_name 79 spoke_vnet.name hub_vnet.name)] := by
  intro env hub_vnet spoke_vnet region_pair config hex hunh
  simp only [create_or_repair_peering_pair]
  rw [hunh]
  simp only [Bool.false_eq_true, if_false, ← Bool.not_and, hunh, Bool.not_false, Bool.and_true,
    hex, Bool.true_and]
  by_cases hc :
      ((create_peering env.create_hub_outcome hub_vnet spoke_vnet
          (generate_peering_name 79 hub_vnet.name spoke_vnet.name) config).success &&
        (create_peering env.create_spoke_outcome spoke_vnet hub_vnet
          (generate_peering_name 79 spoke_vnet.name hub_vnet.name) config).success) = true <;>
    simp [hc, List.append_assoc]

/-- C1 witness: for the repair example environment (unhealthy hub side,
absent spoke side) the trace is the hub-side delete followed by the two
creates. -/
theorem c1_unhealthy_pair_delete_then_create_witness :
    (create_or_repair_peering_pair envRepairEx exHub exSpoke "rp".toList none).ops =
      (if envRepairEx.existing_hub_to_spoke.isSome then
        [MutOp.del exHub.name (generate_peering_name 79 exHub.name exSpoke.name)]
       else []) ++
      (if envRepairEx.existing_spoke_to_hub.isSome then
        [MutOp.del exSpoke.name (generate_peering_name 79 exSpoke.name exHub.name)]
       else []) ++
      [MutOp.create exHub.name (generate_peering_name 79 exHub.name exSpoke.name),
       MutOp.create exSpoke.name (generate_peering_name 79 exSpoke.name exHub.name)] :=
  c1_unhealthy_pair_delete_then_create envRepairEx exHub exSpoke "rp".toList none
    (by decide) (by decide)

/-! ### Claim C10: delete failures are ignored by the repair path -/

/-- C10: `delete_peering` swallows every exception (it returns a boolean that
the repair path never reads), so two pair environments that agree on the
existing sides and on the create outcomes — but have arbitrary, possibly
failing, delete outcomes — produce the same `PeeringResult`, the same
mutating-call trace and the same critical records; moreover whenever the pair
is not both-healthy, both create calls are present in the trace. -/
theorem c10_delete_outcome_never_aborts_pair :
    ∀ (env1 env2 : PairEnv) (hub_vnet spoke_vnet : Vnet) (region_pair : Str)
      (config : Option PeeringConfig),
    env1.existing_hub_to_spoke = env2.existing_hub_to_spoke →
    env1.existing_spoke_to_hub = env2.existing_spoke_to_hub →
    env1.create_hub_outcome = env2.create_hub_outcome →
    env1.create_spoke_outcome = env2.create_spoke_outcome →
    ((create_or_repair_peering_pair env1 hub_vnet spoke_vnet region_pair config).result =
      (create_or_repair_peering_pair env2 hub_vnet spoke_vnet region_pair config).result ∧
    (create_or_repair_peering_pair env1 hub_vnet spoke_vnet region_pair config).ops =
      (create_or_repair_peering_pair env2 hub_vnet spoke_vnet region_pair config).ops ∧
    (create_or_repair_peering_pair env1 hub_vnet spoke_vnet region_pair config).criticals =
      (create_or_repair_peering_pair env2 hub_vnet spoke_vnet region_pair config).criticals) ∧
    ((is_healthy_peering env1.existing_hub_to_spoke &&
        is_healthy_peering env1.existing_spoke_to_hub) = false →
      MutOp.create hub_vnet.name (generate_peering_name 79 hub_vnet.name spoke_vnet.name) ∈
        (create_or_repair_peering_pair env1 hub_vnet spoke_vnet region_pair config).ops ∧
      MutOp.create spoke_vnet.name (generate_peering_name 79 spoke_vnet.name hub_vnet.name) ∈
        (create_or_repair_peering_pair env1 hub_vnet spoke_vnet region_pair config).ops) := by
  intro env1 env2 hub_vnet spoke_vnet region_pair config
  obtain ⟨e1, e2, dh1, ds1, ch1, cs1⟩ := env1
  obtain ⟨f1, f2, dh2, ds2, ch2, cs2⟩ := env2
  intro h1 h2 h3 h4
  simp only at h1 h2 h3 h4
  subst h1; subst h2; subst h3; subst h4
  constructor
  · simp only [create_or_repair_peering_pair]
    by_cases hb : (is_healthy_peering e1 && is_healthy_peering e2) = true
    · simp [hb]
    · rw [Bool.not_eq_true] at hb
      rw [hb]
      by_cases hc :
          ((create_peering ch1 hub_vnet spoke_vnet
              (generate_peering_name 79 hub_vnet.name spoke_vnet.name) config).success &&
            (create_peering cs1 spoke_vnet hub_vnet
              (generate_peering_name 79 spoke_vnet.name hub_vnet.name) config).success) = true <;>
        simp [hc]
  · intro hunh
    simp only at hunh
    simp only [create_or_repair_peering_pair, hunh]
    by_cases hc :
        ((create_peering ch1 hub_vnet spoke_vnet
            (generate_peering_name 79 hub_vnet.name spoke_vnet.name) config).success &&
          (create_peering cs1 spoke_vnet hub_vnet
            (generate_peering_name 79 spoke_vnet.name hub_vnet.name) config).success) = true <;>
      simp [hc]

/-- C10 witness: the repair example with succeeding deletes and the same
environment with failing deletes give identical results and traces. -/
theorem c10_delete_outcome_never_aborts_pair_witness :
    (create_or_repair_peering_pair envRepairEx exHub exSpoke "rp".toList none).result =
      (create_or_repair_peering_pair envRepairFailDelEx exHub exSpoke "rp".toList none).result ∧
    (create_or_repair_peering_pair envRepairEx exHub exSpoke "rp".toList none).ops =
      (create_or_repair_peering_pair envRepairFailDelEx exHub exSpoke "rp".toList none).ops :=
  ⟨(c10_delete_outcome_never_aborts_pair envRepairEx envRepairFailDelEx exHub exSpoke
      "rp".toList none rfl rfl rfl rfl).1.1,
   (c10_delete_outcome_never_aborts_pair envRepairEx envRepairFailDelEx exHub exSpoke
      "rp".toList none rfl rfl rfl rfl).1.2.1⟩

/-! ### Claim C2: create retry discipline -/

/-- C2: a create performs at most 3 remote attempts; it is reported
successful exactly when one of the first 3 attempts succeeds, in which case
no critical-failure record is produced; when all 3 attempts fail, exactly one
critical-failure record is produced, carrying both network identifiers and
the error of the terminal attempt, and the two inter-attempt sleeps are 5 and
10 seconds (each delay twice the previous one). -/
theorem c2_create_retry_discipline :
    ∀ (outcome : Nat → Option Str) (source_vnet target_vnet : Vnet) (peering_name : Str)
      (config : Option PeeringConfig),
    (create_peering outcome source_vnet target_vnet peering_name config).attempts ≤ 3 ∧
    ((create_peering outcome source_vnet target_vnet peering_name config).success = true ↔
      (outcome 0 = none ∨ outcome 1 = none ∨ outcome 2 = none)) ∧
    ((create_peering outcome source_vnet target_vnet peering_name config).success = true →
      (create_peering outcome source_vnet target_vnet peering_name config).critical = []) ∧
    (∀ e0 e1 e2 : Str, outcome 0 = some e0 → outcome 1 = some e1 → outcome 2 = some e2 →
      (create_peering outcome source_vnet target_vnet peering_name config).critical =
        [{ peering_name := peering_name, source_vnet := source_vnet.name,
           source_vnet_id := source_vnet.id, target_vnet := target_vnet.name,
           target_vnet_id := target_vnet.id, config := config.getD defaultPeeringConfig,
           error := e2 }] ∧
      (create_peering outcome source_vnet target_vnet peering_name config).sleeps = [5, 10]) := by
  intro outcome source_vnet target_vnet peering_name config
  cases h0 : outcome 0 <;> cases h1 : outcome 1 <;> cases h2 : outcome 2 <;>
    simp [create_peering, create_attempt_loop, max_retries, retry_delay, h0, h1, h2]

/-- C2 witness: an oracle failing on the first two attempts and succeeding on
the third is reported successful with no critical record; an always-failing
oracle produces exactly one critical record with the terminal error. -/
theorem c2_create_retry_discipline_witness :
    (create_peering (fun n => if n < 2 then some "boom".toList else none)
      exHub exSpoke "cngfw_dnd-hub1-to-spk1".toList none).success = true ∧
    (create_peering (fun n => if n < 2 then some "boom".toList else none)
      exHub exSpoke "cngfw_dnd-hub1-to-spk1".toList none).critical = [] ∧
    (create_peering (fun _ => some "boom".toList)
      exHub exSpoke "cngfw_dnd-hub1-to-spk1".toList none).critical =
      [{ peering_name := "cngfw_dnd-hub1-to-spk1".toList, source_vnet := exHub.name,
         source_vnet_id := exHub.id, target_vnet := exSpoke.name,
         target_vnet_id := exSpoke.id, config := defaultPeeringConfig,
         error := "boom".toList }] := by
  have hs := (c2_create_retry_discipline (fun n => if n < 2 then some "boom".toList else none)
    exHub exSpoke "cngfw_dnd-hub1-to-spk1".toList none).2.1.mpr (by decide)
  refine ⟨hs, (c2_create_retry_discipline (fun n => if n < 2 then some "boom".toList else none)
    exHub exSpoke "cngfw_dnd-hub1-to-spk1".toList none).2.2.1 hs, ?_⟩
  exact ((c2_create_retry_discipline (fun _ => some "boom".toList)
    exHub exSpoke "cngfw_dnd-hub1-to-spk1".toList none).2.2.2
    "boom".toList "boom".toList "boom".toList rfl rfl rfl).1

/-! ### Claim C4: namer length bound and directionality -/

/-- Length of the ownership marker literal. -/
theorem peeringNamePfx_length : peeringNamePfx.length = 10 := by decide

/-- Length of the separator literal. -/
theorem sepToList_length : ("-to-".toList : Str).length = 4 := by decide

/-- Length of the combined marker-and-separator literal used for the
truncation budget. -/
theorem pfxSep_length : ("cngfw_dnd--to-".toList : Str).length = 14 := by decide

/-- Length of the dash literal. -/
theorem dashToList_length : ("-".toList : Str).length = 1 := by decide

/-- C4 counterexample: the names `x` and `x-to-x` are distinct, yet the
generated peering names coincide in both directions (both are the string
`cngfw_dnd-x-to-x-to-x`), because one input extends the other through the
`-to-` separator. -/
theorem c4_counterexample :
    ("x".toList : Str) ≠ "x-to-x".toList ∧
    generate_peering_name 79 "x".toList "x-to-x".toList =
      generate_peering_name 79 "x-to-x".toList "x".toList := by
  decide

/-- C4 amended: every generated name has length at most 79 (the function is a
pure Lean function, hence deterministic), and `name(a,b) ≠ name(b,a)` holds
whenever `a ≠ b` have equal lengths and the untruncated base name fits the
79-character limit; unconditional directional distinctness fails, as inputs
that extend one another through the `-to-` separator collide. -/
theorem c4_name_length_and_direction :
    ∀ vnet_a_name vnet_b_name : Str,
    (generate_peering_name 79 vnet_a_name vnet_b_name).length ≤ 79 ∧
    (vnet_a_name.length = vnet_b_name.length → vnet_a_name ≠ vnet_b_name →
      (peering_base_name vnet_a_name vnet_b_name).length ≤ 79 →
      generate_peering_name 79 vnet_a_name vnet_b_name ≠
        generate_peering_name 79 vnet_b_name vnet_a_name) := by
  intro a b
  constructor
  · simp only [generate_peering_name]
    split
    · next h => exact h
    · next h =>
      simp only [List.length_append, List.length_take, peeringNamePfx_length,
        sepToList_length, pfxSep_length, dashToList_length]
      omega
  · intro hlen hne hfit
    have hfit2 : (peering_base_name b a).length ≤ 79 := by
      simp only [peering_base_name, List.length_append] at hfit ⊢
      omega
    simp only [generate_peering_name]
    rw [if_pos hfit, if_pos hfit2]
    intro heq
    simp only [peering_base_name] at heq
    have h1 : a ++ ("-to-".toList ++ b) = b ++ ("-to-".toList ++ a) :=
      List.append_cancel_left (by simpa only [List.append_assoc] using heq)
    have h2 := congrArg (List.take a.length) h1
    rw [List.take_left, List.take_left' hlen.symm] at h2
    exact hne h2

/-- C4 amended, witness on two distinct names of equal length. -/
theorem c4_name_length_and_direction_witness :
    (generate_peering_name 79 "hub-a".toList "spk-b".toList).length ≤ 79 ∧
    generate_peering_name 79 "hub-a".toList "spk-b".toList ≠
      generate_peering_name 79 "spk-b".toList "hub-a".toList :=
  ⟨(c4_name_length_and_direction "hub-a".toList "spk-b".toList).1,
   (c4_name_length_and_direction "hub-a".toList "spk-b".toList).2
     (by decide) (by decide) (by decide)⟩

/-! ### Claim C9: hash-suffix disambiguation under truncation -/

set_option maxRecDepth 10000 in
/-- C9 counterexample: two distinct inputs that truncate to the same 30-char
prefixes and whose base names both exceed 79 characters receive the same
4-hex-character md5 suffix (`83b5`), so their generated names coincide — the
16-bit hash suffix cannot separate all same-prefix pairs. -/
theorem c9_counterexample :
    ("aaaaaaaaaaaaaaaaaaaaaaaaaaaaaa255".toList : Str) ≠
      "aaaaaaaaaaaaaaaaaaaaaaaaaaaaaa317".toList ∧
    79 < (peering_base_name "aaaaaaaaaaaaaaaaaaaaaaaaaaaaaa255".toList
      "bbbbbbbbbbbbbbbbbbbbbbbbbbbbbbbbbbbb".toList).length ∧
    79 < (peering_base_name "aaaaaaaaaaaaaaaaaaaaaaaaaaaaaa317".toList
      "bbbbbbbbbbbbbbbbbbbbbbbbbbbbbbbbbbbb".toList).length ∧
    List.take 30 ("aaaaaaaaaaaaaaaaaaaaaaaaaaaaaa255".toList : Str) =
      List.take 30 ("aaaaaaaaaaaaaaaaaaaaaaaaaaaaaa317".toList : Str) ∧
    generate_peering_name 79 "aaaaaaaaaaaaaaaaaaaaaaaaaaaaaa255".toList
        "bbbbbbbbbbbbbbbbbbbbbbbbbbbbbbbbbbbb".toList =
      generate_peering_name 79 "aaaaaaaaaaaaaaaaaaaaaaaaaaaaaa317".toList
        "bbbbbbbbbbbbbbbbbbbbbbbbbbbbbbbbbbbb".toList := by
  decide

/-- C9 amended: for two over-limit pairs that truncate to the same prefixes,
the generated names differ exactly when the two appended 4-hex-character md5
suffixes of the untruncated base names differ; the suffix disambiguates
same-prefix pairs only up to collisions of a 16-bit hash. -/
theorem c9_truncation_collision_iff :
    ∀ a b c d : Str,
    79 < (peering_base_name a b).length →
    79 < (peering_base_name c d).length →
    a.take 30 = c.take 30 →
    b.take 30 = d.take 30 →
    (generate_peering_name 79 a b = generate_peering_name 79 c d ↔
      (md5_hexdigest (utf8Encode (peering_base_name a b))).take 4 =
        (md5_hexdigest (utf8Encode (peering_base_name c d))).take 4) := by
  intro a b c d hab hcd hac hbd
  have h30 : (79 - ("cngfw_dnd--to-".toList : Str).length) / 2 - 2 = 30 := by decide
  simp only [generate_peering_name]
  rw [if_neg (by omega), if_neg (by omega), h30, hac, hbd]
  constructor
  · intro h
    simpa only [List.append_assoc, List.append_cancel_left_eq] using h
  · intro h
    rw [h]

/-- C9 amended, witness on two distinct same-prefix over-limit inputs. -/
theorem c9_truncation_collision_iff_witness :
    generate_peering_name 79 "aaaaaaaaaaaaaaaaaaaaaaaaaaaaaaaaa".toList
        "bbbbbbbbbbbbbbbbbbbbbbbbbbbbbbbbb".toList =
      generate_peering_name 79 "aaaaaaaaaaaaaaaaaaaaaaaaaaaaaazzz".toList
        "bbbbbbbbbbbbbbbbbbbbbbbbbbbbbbbbb".toList ↔
    (md5_hexdigest (utf8Encode (peering_base_name "aaaaaaaaaaaaaaaaaaaaaaaaaaaaaaaaa".toList
        "bbbbbbbbbbbbbbbbbbbbbbbbbbbbbbbbb".toList))).take 4 =
      (md5_hexdigest (utf8Encode (peering_base_name "aaaaaaaaaaaaaaaaaaaaaaaaaaaaaazzz".toList
        "bbbbbbbbbbbbbbbbbbbbbbbbbbbbbbbbb".toList))).take 4 :=
  c9_truncation_collision_iff "aaaaaaaaaaaaaaaaaaaaaaaaaaaaaaaaa".toList
    "bbbbbbbbbbbbbbbbbbbbbbbbbbbbbbbbb".toList "aaaaaaaaaaaaaaaaaaaaaaaaaaaaaazzz".toList
    "bbbbbbbbbbbbbbbbbbbbbbbbbbbbbbbbb".toList (by decide) (by decide) (by decide) (by decide)

/-! ### Claim C5: the orphan sweep -/

/-- Candidate log lines of `process_peerings`: one per orphan candidate, in
both modes. -/
theorem process_peerings_candidates (vnet_name : Str) (valid_vnet_ids : List Str)
    (dry_run : Bool) (delete_ok : Str → Str → Bool) (ps : List Peering) :
    (process_peerings vnet_name valid_vnet_ids dry_run delete_ok ps).candidates =
      (ps.filter (orphan_candidate valid_vnet_ids)).map (fun q => (vnet_name, q.name)) := by
  induction ps with
  | nil => rfl
  | cons q rest ih =>
    by_cases hc : orphan_candidate valid_vnet_ids q
    · cases dry_run
      · by_cases hd : delete_ok vnet_name q.name <;>
          simp [process_peerings, hc, hd, ih, List.filter_cons]
      · simp [process_peerings, hc, ih, List.filter_cons]
    · simp [process_peerings, hc, ih, List.filter_cons]

/-- Delete calls of `process_peerings`: none in dry-run mode, one per orphan
candidate otherwise. -/
theorem process_peerings_deletes (vnet_name : Str) (valid_vnet_ids : List Str)
    (dry_run : Bool) (delete_ok : Str → Str → Bool) (ps : List Peering) :
    (process_peerings vnet_name valid_vnet_ids dry_run delete_ok ps).deletes =
      if dry_run then []
      else (ps.filter (orphan_candidate valid_vnet_ids)).map (fun q => (vnet_name, q.name)) := by
  induction ps with
  | nil => cases dry_run <;> rfl
  | cons q rest ih =>
    by_cases hc : orphan_candidate valid_vnet_ids q
    · cases dry_run
      · by_cases hd : delete_ok vnet_name q.name <;>
          simp [process_peerings, hc, hd, ih, List.filter_cons]
      · simp [process_peerings, hc, ih, List.filter_cons]
    · cases dry_run <;> simp [process_peerings, hc, ih, List.filter_cons]

/-- Orphan records of `process_peerings`: none in dry-run mode, one per
orphan candidate whose delete succeeded otherwise. -/
theorem process_peerings_deleted_orphans (vnet_name : Str) (valid_vnet_ids : List Str)
    (dry_run : Bool) (delete_ok : Str → Str → Bool) (ps : List Peering) :
    (process_peerings vnet_name valid_vnet_ids dry_run delete_ok ps).deleted_orphans =
      if dry_run then []
      else ((ps.filter (orphan_candidate valid_vnet_ids)).filter
          (fun q => delete_ok vnet_name q.name)).map
        (fun q => { vnet := vnet_name, peering_name := q.name,
                    remote_id := asciiLower q.remote_virtual_network_id }) := by
  induction ps with
  | nil => cases dry_run <;> rfl
  | cons q rest ih =>
    by_cases hc : orphan_candidate valid_vnet_ids q
    · cases dry_run
      · by_cases hd : delete_ok vnet_name q.name <;>
          simp [process_peerings, hc, hd, ih, List.filter_cons]
      · simp [process_peerings, hc, ih, List.filter_cons]
    · cases dry_run <;> simp [process_peerings, hc, ih, List.filter_cons]

/-- Counting an element of a duplicate-free list, for any lawful boolean
equality. -/
theorem count_eq_one_of_mem_nodup {α : Type} [BEq α] [LawfulBEq α] {l : List α} {a : α}
    (d : l.Nodup) (h : a ∈ l) : l.count a = 1 := by
  induction l with
  | nil => cases h
  | cons x xs ih =>
    rw [List.count_cons]
    rcases List.mem_cons.mp h with rfl | hmem
    · have hx : xs.count a = 0 := List.count_eq_zero.mpr (List.nodup_cons.mp d).1
      simp [hx]
    · have hne : a ≠ x := by
        rintro rfl; exact (List.nodup_cons.mp d).1 hmem
      rw [ih (List.nodup_cons.mp d).2 hmem]
      simp [Ne.symm hne]

/-- C5: for a network in a valid region whose peerings carry pairwise
distinct names, every peering bearing the ownership marker whose lower-cased
remote id is outside the valid-network set is logged as a candidate in both
modes, deleted zero times in dry-run mode, deleted exactly once otherwise,
and — when the delete succeeds — recorded in exactly one `OrphanRecord`
carrying the owning network name, the peering name and the lower-cased remote
id.  (In the source this sweep is unreachable: its body is trapped inside
`cleanup_failure_log` and `main` calls the missing method
`cleanup_orphan_peerings`.) -/
theorem c5_orphan_sweep_behavior :
    ∀ (valid_region_lower valid_vnet_ids : List Str) (dry_run : Bool)
      (delete_ok : Str → Str → Bool) (sv : SweepVnet) (p : Peering),
    p ∈ sv.peerings →
    (sv.peerings.map Peering.name).Nodup →
    valid_region_lower.contains (asciiLower sv.vnet.location) = true →
    orphan_candidate valid_vnet_ids p = true →
    ((sv.vnet.name, p.name) ∈
      (process_vnet_orphans valid_region_lower valid_vnet_ids dry_run delete_ok sv).candidates) ∧
    (dry_run = true →
      (process_vnet_orphans valid_region_lower valid_vnet_ids dry_run delete_ok sv).deletes = []) ∧
    (dry_run = false →
      ((process_vnet_orphans valid_region_lower valid_vnet_ids dry_run delete_ok sv).deletes).count
        (sv.vnet.name, p.name) = 1) ∧
    (dry_run = false → delete_ok sv.vnet.name p.name = true →
      ((process_vnet_orphans valid_region_lower valid_vnet_ids dry_run
          delete_ok sv).deleted_orphans).count
        { vnet := sv.vnet.name, peering_name := p.name,
          remote_id := asciiLower p.remote_virtual_network_id } = 1) := by
  intro vr vi dry delOk sv p hp hnodup hreg hcand
  simp only [process_vnet_orphans, hreg, if_true, process_peerings_candidates,
    process_peerings_deletes, process_peerings_deleted_orphans]
  have hmem1 : p ∈ sv.peerings.filter (orphan_candidate vi) :=
    List.mem_filter.mpr ⟨hp, hcand⟩
  have hnames1 : ((sv.peerings.filter (orphan_candidate vi)).map Peering.name).Nodup :=
    hnodup.sublist ((List.filter_sublist sv.peerings).map Peering.name)
  refine ⟨List.mem_map.mpr ⟨p, hmem1, rfl⟩, ?_, ?_, ?_⟩
  · intro hd; simp [hd]
  · intro hd
    rw [hd, if_neg Bool.false_ne_true]
    have hnpairs :
        ((sv.peerings.filter (orphan_candidate vi)).map
          (fun q => (sv.vnet.name, q.name))).Nodup := by
      have : ((sv.peerings.filter (orphan_candidate vi)).map
          (fun q => (sv.vnet.name, q.name))) =
          ((sv.peerings.filter (orphan_candidate vi)).map Peering.name).map
            (fun n => (sv.vnet.name, n)) := by
        rw [List.map_map]
        rfl
      rw [this]
      exact hnames1.map (fun x y h => by simpa using h)
    exact count_eq_one_of_mem_nodup hnpairs (List.mem_map.mpr ⟨p, hmem1, rfl⟩)
  · intro hd hdel
    rw [hd, if_neg Bool.false_ne_true]
    have hmem2 : p ∈ (sv.peerings.filter (orphan_candidate vi)).filter
        (fun q => delOk sv.vnet.name q.name) :=
      List.mem_filter.mpr ⟨hmem1, hdel⟩
    have hnames2 : (((sv.peerings.filter (orphan_candidate vi)).filter
        (fun q => delOk sv.vnet.name q.name)).map Peering.name).Nodup :=
      hnames1.sublist ((List.filter_sublist _).map Peering.name)
    have hrec : (((sv.peerings.filter (orphan_candidate vi)).filter
        (fun q => delOk sv.vnet.name q.name)).map
          (fun q => ({ vnet := sv.vnet.name, peering_name := q.name,
                       remote_id := asciiLower q.remote_virtual_network_id } : OrphanRecord))).Nodup := by
      refine List.Nodup.map_on ?_ (List.Nodup.of_map Peering.name hnames2)
      intro x hx y hy hxy
      exact List.inj_on_of_nodup_map hnames2 hx hy
        (congrArg OrphanRecord.peering_name hxy)
    exact count_eq_one_of_mem_nodup hrec (List.mem_map.mpr ⟨p, hmem2, rfl⟩)

/-- Example orphaned peering: it bears the ownership marker and points at a
network absent from the valid set. -/
def orphanPeeringEx : Peering :=
  { name := "cngfw_dnd-spk1-to-gone".toList, peering_state := "Connected".toList,
    allow_virtual_network_access := true, allow_forwarded_traffic := true,
    peering_sync_level := none,
    remote_virtual_network_id := "/subscriptions/c/resourceGroups/rg/gone".toList }

/-- Example swept network holding the orphaned peering. -/
def sweepVnetEx : SweepVnet := { vnet := exSpoke, peerings := [orphanPeeringEx] }

/-- C5 witness: in the concrete one-orphan example with dry-run off and a
succeeding delete, the orphan is deleted exactly once and recorded exactly
once. -/
theorem c5_orphan_sweep_behavior_witness :
    ((process_vnet_orphans ["eastus".toList] [asciiLower exHub.id] false
        (fun _ _ => true) sweepVnetEx).deletes).count
      (sweepVnetEx.vnet.name, orphanPeeringEx.name) = 1 ∧
    ((process_vnet_orphans ["eastus".toList] [asciiLower exHub.id] false
        (fun _ _ => true) sweepVnetEx).deleted_orphans).count
      { vnet := sweepVnetEx.vnet.name, peering_name := orphanPeeringEx.name,
        remote_id := asciiLower orphanPeeringEx.remote_virtual_network_id } = 1 :=
  ⟨(c5_orphan_sweep_behavior ["eastus".toList] [asciiLower exHub.id] false
      (fun _ _ => true) sweepVnetEx orphanPeeringEx (by decide) (by decide)
      (by decide) (by decide)).2.2.1 rfl,
   (c5_orphan_sweep_behavior ["eastus".toList] [asciiLower exHub.id] false
      (fun _ _ => true) sweepVnetEx orphanPeeringEx (by decide) (by decide)
      (by decide) (by decide)).2.2.2 rfl rfl⟩
